import Mathlib

/-!
Verification of the FTVA ETL metadata normalization engine.

The definitions below are a shallow embedding of the Python modules
`ftva_etl/metadata/utils.py`, `ftva_etl/metadata/marc.py`,
`ftva_etl/metadata/filemaker.py`, `ftva_etl/metadata/digital_data.py` and
`ftva_etl/metadata/mams_metadata.py`.

Python strings are modelled by `String` (ASCII assumed for case folding and
whitespace, which covers the cataloging data these functions receive).
Python dicts are modelled by association lists with first-key-wins lookup and
replace-or-append update, matching insertion-order semantics.  Code that can
raise (`IndexError`, `ValueError`) is modelled with `Except String`.
External dependencies (the `dateutil` parser, the spacy NER model and the
language-code table loaded from a JSON resource) are passed in as function
or table parameters.
-/

set_option autoImplicit false

namespace FtvaEtl

/-! ### Python string primitives -/

/-- The six ASCII whitespace characters stripped by Python `str.strip()`. -/
def isPyWhitespace (c : Char) : Bool :=
  c = ' ' || c = '\t' || c = '\n' || c = '\r' || c.toNat = 11 || c.toNat = 12

/-- Membership in Python `string.punctuation`
(ASCII codes 33-47, 58-64, 91-96, 123-126). -/
def isAsciiPunct (c : Char) : Bool :=
  (33 ≤ c.toNat && c.toNat ≤ 47) || (58 ≤ c.toNat && c.toNat ≤ 64) ||
  (91 ≤ c.toNat && c.toNat ≤ 96) || (123 ≤ c.toNat && c.toNat ≤ 126)

/-- Python `s.rstrip(chars)`: drop trailing characters satisfying `p`. -/
def rstripIf (p : Char → Bool) (s : String) : String :=
  ⟨(s.data.reverse.dropWhile p).reverse⟩

/-- Python `s.lstrip(chars)`: drop leading characters satisfying `p`. -/
def lstripIf (p : Char → Bool) (s : String) : String :=
  ⟨s.data.dropWhile p⟩

/-- Python `s.strip(chars)`: drop characters satisfying `p` from both ends. -/
def stripIf (p : Char → Bool) (s : String) : String :=
  rstripIf p (lstripIf p s)

/-- Python `s.strip()` (whitespace strip). -/
def pyStrip (s : String) : String := stripIf isPyWhitespace s

/-- Characters in the trailing-punctuation set `".,;:!?"` used by `parse_date`. -/
def isDateTrailingPunct (c : Char) : Bool :=
  c = '.' || c = ',' || c = ';' || c = ':' || c = '!' || c = '?'

/-- Characters stripped in the first stage of `strip_whitespace_and_punctuation`:
Python `string.punctuation + " "`. -/
def isPunctOrSpace (c : Char) : Bool := isAsciiPunct c || c = ' '

/-- Characters stripped in the second stage of `strip_whitespace_and_punctuation`:
the set `"[] "`. -/
def isBracketOrSpace (c : Char) : Bool := c = '[' || c = ']' || c = ' '

/-- First character position at which `needle` occurs in `hay`
(Python `str.find` for a present needle). -/
def firstMatchPos (needle : List Char) : List Char → Option Nat
  | [] => if needle = [] then some 0 else none
  | c :: rest =>
    if needle.isPrefixOf (c :: rest) then some 0
    else
      match firstMatchPos needle rest with
      | some n => some (n + 1)
      | none => none

/-- Python `sub in s` (substring containment). -/
def strContains (s sub : String) : Bool := (firstMatchPos sub.data s.data).isSome

/-- Python `s.find(sub)` where the caller has checked `sub in s`. -/
def strFind (s sub : String) : Nat := (firstMatchPos sub.data s.data).getD 0

/-- Python `s[n:]` (slice from character index `n`). -/
def dropChars (s : String) (n : Nat) : String := ⟨s.data.drop n⟩

/-- Python `s.lower()` (ASCII case folding), written over the character
list so that it reduces in the kernel. -/
def pyLower (s : String) : String := ⟨s.data.map Char.toLower⟩

/-- `List`-level body of Python `s.split(sep)` for a one-character
separator: `"".split(sep) == [""]` and separators delimit possibly-empty
segments. -/
def splitCharList (sep : Char) : List Char → List (List Char)
  | [] => [[]]
  | c :: rest =>
    if c = sep then [] :: splitCharList sep rest
    else
      match splitCharList sep rest with
      | [] => [[c]]
      | g :: gs => (c :: g) :: gs

/-- Python `s.split(sep)` for a one-character separator. -/
def pySplitOnChar (sep : Char) (s : String) : List String :=
  (splitCharList sep s.data).map (fun l => ⟨l⟩)

/-- Python `s.startswith(pre)`. -/
def pyStartsWith (s pre : String) : Bool := pre.data.isPrefixOf s.data

/-! ### `utils.py`: parse_date -/

/-- `date_string.replace("[", "").replace("]", "")`. -/
def removeBrackets (s : String) : String :=
  ⟨s.data.filter (fun c => !(c = '[' || c = ']'))⟩

/-- The bracket-removed, punctuation- and whitespace-stripped core that
`parse_date` computes before branching. -/
def parseDateCore (s : String) : String :=
  let in_brackets := s.data.contains '[' && s.data.contains ']'
  pyStrip (rstripIf isDateTrailingPunct (if in_brackets then removeBrackets s else s))

/-- `utils.parse_date`.  The `dateutil` parameter models
`dateutil.parser.parse` followed by `strftime("%Y-%m-%d")`:
`some formatted` on success, `none` when parsing raises. -/
def parse_date (dateutil : String → Option String) (date_string : String) : String :=
  let in_brackets := date_string.data.contains '[' && date_string.data.contains ']'
  let core := pyStrip (rstripIf isDateTrailingPunct
    (if in_brackets then removeBrackets date_string else date_string))
  let formatted :=
    if core.length = 4 && (core.data.all Char.isDigit || core.data.contains '-') then core
    else
      match dateutil core with
      | some d => d
      | none => core
  if in_brackets then "[" ++ formatted ++ "]" else formatted

/-! ### `utils.py`: strip_whitespace_and_punctuation -/

/-- `utils.strip_whitespace_and_punctuation`:
`item.rstrip(string.punctuation + " ").strip("[] ")` for each item. -/
def strip_whitespace_and_punctuation (items : List String) : List String :=
  items.map (fun item => stripIf isBracketOrSpace (rstripIf isPunctOrSpace item))

/-- The Text Normalizer as the spec describes it (strip trailing `.,;:!?` and
surrounding whitespace, then surrounding square brackets and whitespace),
written for comparison with `strip_whitespace_and_punctuation`. -/
def strip_whitespace_and_punctuation_specReading (items : List String) : List String :=
  items.map (fun item => stripIf isBracketOrSpace (pyStrip (rstripIf isDateTrailingPunct item)))

/-! ### `utils.py`: cleanup_production_type -/

/-- `utils.cleanup_production_type`: lowercase, split on carriage returns,
strip each item's whitespace. -/
def cleanup_production_type (production_type : String) : List String :=
  (pySplitOnChar '\r' (pyLower production_type)).map pyStrip

/-! ### `filemaker.py` -/

/-- The series keywords from `filemaker.is_series_production_type`. -/
def series_keywords : List String := ["television series", "mini-series", "serials", "news"]

/-- `filemaker.is_series_production_type`, taking the record's
`production_type` string.  Note: `keyword in production_type` in the source
tests list membership (whole-segment equality), since
`cleanup_production_type` returns a list. -/
def is_series_production_type (production_type : String) : Bool :=
  let pt := cleanup_production_type production_type
  series_keywords.any (fun keyword => pt.contains keyword)

/-- The series classification as the spec reads it: some segment *contains*
one of the keywords as a substring.  Written for comparison with
`is_series_production_type`. -/
def is_series_production_type_specReading (production_type : String) : Bool :=
  (cleanup_production_type production_type).any
    (fun segment => series_keywords.any (fun keyword => strContains segment keyword))

/-! ### `utils.py`: inventory number matching -/

/-- The inventory-number prefix list from `_is_inventory_number_match`. -/
def inv_no_prefixList : List String := ["DVD", "HFA", "VA", "VD", "XFE", "XFF", "XVE", "ZVB"]

/-- The call-number suffix list from `_is_inventory_number_match`. -/
def call_no_suffixes : List String := [" M", " R", " T"]

/-- `utils._is_inventory_number_match`. -/
def is_inventory_number_match (inventory_number call_number : String) : Bool :=
  if inventory_number = call_number then true
  else
    inv_no_prefixList.any (fun p =>
      pyStartsWith inventory_number p &&
        call_no_suffixes.any (fun suffix => inventory_number ++ suffix = call_number))

/-! ### MARC data model (pymarc `Record` / `Field`) -/

/-- A MARC field: tag, two indicators, subfields (code, value) in order, and
`data` for control fields. -/
structure MarcField where
  tag : String
  indicator1 : String
  indicator2 : String
  subfields : List (String × String)
  data : String
deriving Repr, DecidableEq, Inhabited

/-- A MARC record is its ordered list of fields. -/
abbrev MarcRecord := List MarcField

/-- pymarc `record.get_fields(tag)`. -/
def get_fields (r : MarcRecord) (tag : String) : List MarcField :=
  r.filter (fun f => f.tag = tag)

/-- pymarc `record.get(tag)`: the first field with the tag, if any. -/
def recordGet (r : MarcRecord) (tag : String) : Option MarcField :=
  r.find? (fun f => f.tag = tag)

/-- pymarc `field.get_subfields(code)`: values of matching subfields, in order. -/
def get_subfields (f : MarcField) (code : String) : List String :=
  (f.subfields.filter (fun p => p.1 = code)).map (fun p => p.2)

/-- pymarc `field.get(code, default)`: first matching subfield value or default. -/
def fieldGet (f : MarcField) (code dflt : String) : String :=
  ((get_subfields f code).head?).getD dflt

/-! ### `marc.py`: dates -/

/-- The `{date, qualifier}` dict built by `_get_date_from_bib`. -/
structure DateDict where
  date : String
  qualifier : String
deriving Repr, DecidableEq

/-- The 260 loop of `_get_date_from_bib`: first field with both indicators
blank and a `c` subfield wins. -/
def find260c : List MarcField → Option DateDict
  | [] => none
  | f :: rest =>
    if f.indicator1 = " " && f.indicator2 = " " then
      match get_subfields f "c" with
      | [] => find260c rest
      | c :: _ => some ⟨pyStrip c, "release_broadcast_date"⟩
    else find260c rest

/-- The `qualifier_map` dict of `_get_date_from_bib`. -/
def qualifierMap (ind : String) : String :=
  if ind = "2" then "distribution_date"
  else if ind = "1" then "release_broadcast_date"
  else if ind = "4" then "copyright_notice_date"
  else if ind = "0" then "production_date"
  else if ind = "3" then "manufacture_date"
  else ""

/-- The inner 264 loop of `_get_date_from_bib` for one second-indicator value. -/
def find264c (ind : String) : List MarcField → Option DateDict
  | [] => none
  | f :: rest =>
    if f.indicator1 = " " && f.indicator2 = ind then
      match get_subfields f "c" with
      | [] => find264c ind rest
      | c :: _ => some ⟨pyStrip c, qualifierMap ind⟩
    else find264c ind rest

/-- The outer 264 loop of `_get_date_from_bib` over the indicator priority list. -/
def find264ByPriority : List String → List MarcField → Option DateDict
  | [], _ => none
  | i :: rest, fields =>
    match find264c i fields with
    | some d => some d
    | none => find264ByPriority rest fields

/-- The second-indicator priority list of `_get_date_from_bib`. -/
def indicator_priority : List String := ["2", "1", "4", "0", "3"]

/-- `marc._get_date_from_bib`. -/
def get_date_from_bib (bib_record : MarcRecord) : DateDict :=
  match find260c (get_fields bib_record "260") with
  | some d => d
  | none =>
    let fields_264 := get_fields bib_record "264"
    if !(fields_264.any (fun f => f.indicator1 = " ")) then ⟨"", ""⟩
    else
      match find264ByPriority indicator_priority fields_264 with
      | some d => d
      | none => ⟨"", ""⟩

/-- `marc.get_date_info`, returning the single `{qualifier: date}` pair.
The dict returned by `_get_date_from_bib` always has both keys, so the
`if not date_dict` branch of the source is unreachable. -/
def get_date_info (dateutil : String → Option String) (bib_record : MarcRecord) :
    String × String :=
  let date_dict := get_date_from_bib bib_record
  let qualifier :=
    if date_dict.qualifier = "" then "release_broadcast_date" else date_dict.qualifier
  (qualifier, parse_date dateutil date_dict.date)

/-! ### `marc.py`: record ids -/

/-- `marc.get_record_id`: value of the first `001` control field, or `""`. -/
def get_record_id (marc_record : MarcRecord) : String :=
  match recordGet marc_record "001" with
  | some f => f.data
  | none => ""

/-- `marc.get_bib_id` (wrapper for `get_record_id`). -/
def get_bib_id (marc_record : MarcRecord) : String := get_record_id marc_record

/-! ### String-valued dicts (for the title bundle) -/

/-- Python dict assignment `d[k] = v` on a string-valued dict modelled as an
association list: replace in place if the key exists, else append. -/
def sdictSet (d : List (String × String)) (k v : String) : List (String × String) :=
  if d.any (fun p => p.1 = k) then d.map (fun p => if p.1 = k then (k, v) else p)
  else d ++ [(k, v)]

/-- Key membership in a string-valued dict. -/
def sdictHasKey (d : List (String × String)) (k : String) : Bool :=
  d.any (fun p => p.1 = k)

/-! ### `marc.py`: titles -/

/-- The `_get_first_stripped` helper nested in `get_title_info`. -/
def get_first_stripped (subfields : List String) : String :=
  match strip_whitespace_and_punctuation subfields with
  | [] => ""
  | s :: _ => s

/-- CASE 5 of `get_title_info`: main title, but no name of part or number
of part. -/
def titleCase5 (main_title name_of_part number_of_part : String)
    (titles : List (String × String)) : List (String × String) :=
  if main_title ≠ "" ∧ name_of_part = "" ∧ number_of_part = "" then
    sdictSet titles "title" main_title
  else titles

/-- CASE 4 of `get_title_info`: main title and number of part, no name of
part, for non-series. -/
def titleCase4 (main_title name_of_part number_of_part : String) (is_series : Bool)
    (titles : List (String × String)) : List (String × String) :=
  if ¬is_series = true ∧ main_title ≠ "" ∧ number_of_part ≠ "" ∧ name_of_part = "" then
    sdictSet titles "title" (main_title ++ ". " ++ number_of_part)
  else titles

/-- CASE 3 of `get_title_info`: main title and number of part, no name of
part, for series. -/
def titleCase3 (main_title name_of_part number_of_part : String) (is_series : Bool)
    (titles : List (String × String)) : List (String × String) :=
  if is_series = true ∧ main_title ≠ "" ∧ number_of_part ≠ "" ∧ name_of_part = "" then
    sdictSet (sdictSet (sdictSet titles "title" (main_title ++ ". " ++ number_of_part))
      "series_title" main_title) "episode_title" number_of_part
  else titles

/-- CASE 2 of `get_title_info`: main title and name of part, no number of
part. -/
def titleCase2 (main_title name_of_part number_of_part : String)
    (titles : List (String × String)) : List (String × String) :=
  if main_title ≠ "" ∧ name_of_part ≠ "" ∧ number_of_part = "" then
    sdictSet (sdictSet (sdictSet titles "title" (main_title ++ ". " ++ name_of_part))
      "series_title" main_title) "episode_title" name_of_part
  else titles

/-- CASE 1 of `get_title_info`: main title, name of part and number of
part. -/
def titleCase1 (main_title name_of_part number_of_part : String)
    (titles : List (String × String)) : List (String × String) :=
  if main_title ≠ "" ∧ name_of_part ≠ "" ∧ number_of_part ≠ "" then
    sdictSet (sdictSet (sdictSet titles "title"
      (main_title ++ ". " ++ name_of_part ++ ". " ++ number_of_part))
      "series_title" main_title) "episode_title" (name_of_part ++ ". " ++ number_of_part)
  else titles

/-- The case block of `get_title_info`, applied after `main_title` has
absorbed `remainder_of_title`: the five `CASE` `if` statements of the
source update `titles = {}` in source order (case 5 first, case 1 last). -/
def composeTitleCases (main_title name_of_part number_of_part : String)
    (is_series : Bool) : List (String × String) :=
  titleCase1 main_title name_of_part number_of_part
    (titleCase2 main_title name_of_part number_of_part
      (titleCase3 main_title name_of_part number_of_part is_series
        (titleCase4 main_title name_of_part number_of_part is_series
          (titleCase5 main_title name_of_part number_of_part []))))

/-- `marc.get_title_info`.  The two `raise ValueError` statements are
modelled as `Except.error` carrying the formatted message. -/
def get_title_info (bib_record : MarcRecord) (is_series : Bool) :
    Except String (List (String × String)) :=
  let record_id := get_record_id bib_record
  match recordGet bib_record "245" with
  | none => .error ("No 245 field found in bib record " ++ record_id ++ ".")
  | some title_statement =>
    let main_title0 := get_first_stripped (get_subfields title_statement "a")
    let remainder_of_title := get_first_stripped (get_subfields title_statement "b")
    let name_of_part := get_first_stripped (get_subfields title_statement "p")
    let number_of_part := get_first_stripped (get_subfields title_statement "n")
    if main_title0 = "" then
      .error ("No 245 $a found in bib record " ++ record_id ++ ".")
    else
      let main_title :=
        if remainder_of_title ≠ "" then main_title0 ++ ". " ++ remainder_of_title
        else main_title0
      .ok (composeTitleCases main_title name_of_part number_of_part is_series)

/-- The alternative-titles extraction as the spec describes it (tag `246`,
first indicator in `{0,2,3}`, second indicator blank, normalized `$a`
values).  No corresponding code exists in `marc.py`; this is written for
comparison with the output of `get_title_info`. -/
def alternative_titles_specReading (bib_record : MarcRecord) : List String :=
  ((get_fields bib_record "246").filter (fun f =>
    (f.indicator1 = "0" || f.indicator1 = "2" || f.indicator1 = "3") &&
      f.indicator2 = " ")).foldr
    (fun f acc => strip_whitespace_and_punctuation (get_subfields f "a") ++ acc) []

/-! ### `marc.py`: creators -/

/-- `marc._get_creator_info_from_bib`: split `245 $c` on semicolons.
Note Python `"".split(";") == [""]`, matched by `String.splitOn`. -/
def get_creator_info_from_bib (bib_record : MarcRecord) : List String :=
  match recordGet bib_record "245" with
  | none => []
  | some f245 => pySplitOnChar ';' (fieldGet f245 "c" "")

/-- The attribution phrase list of `_parse_creators`. -/
def attribution_phrases : List String :=
  ["directed by", "director", "a film by", "supervised by"]

/-- `marc._parse_creators`.  The `model` parameter stands for the spacy NER
model: it returns the entity spans of its input as (text, label) pairs. -/
def parse_creators (model : String → List (String × String)) (source_string : String) :
    List String :=
  let creator_string :=
    match attribution_phrases.find? (fun phrase =>
        strContains (pyLower source_string) phrase) with
    | none => ""
    | some phrase =>
      let start_index := strFind (pyLower source_string) phrase + phrase.length
      pyStrip (dropChars source_string start_index)
  if creator_string = "" then []
  else ((model creator_string).filter (fun ent => ent.2 = "PERSON")).map (fun ent => ent.1)

/-- `marc.get_creators`. -/
def get_creators (bib_record : MarcRecord) (model : String → List (String × String)) :
    List String :=
  (get_creator_info_from_bib bib_record).foldr
    (fun creator acc => parse_creators model creator ++ acc) []

/-! ### `marc.py`: languages -/

/-- `marc._get_language_code_from_bib`: positions 35-37 of a valid
40-character `008` control field, else `""`. -/
def get_language_code_from_bib (bib_record : MarcRecord) : String :=
  match recordGet bib_record "008" with
  | none => ""
  | some field_008 =>
    let field_data := field_008.data
    if field_data ≠ "" ∧ field_data.length = 40 then ⟨(field_data.data.drop 35).take 3⟩
    else ""

/-- `marc.get_language_name`.  The `language_map` parameter stands for the
code→name table loaded from the packaged `language_map.json` resource. -/
def get_language_name (language_map : List (String × String)) (bib_record : MarcRecord) :
    String :=
  let language_code := get_language_code_from_bib bib_record
  match language_map.find? (fun p => p.1 = language_code) with
  | some p => p.2
  | none => ""

/-! ### `digital_data.py` -/

/-- A Digital Data record: a flat string-keyed, string-valued mapping. -/
abbrev DDRecord := List (String × String)

/-- Python `dd_record.get(key, dflt)`. -/
def ddGet (dd_record : DDRecord) (key dflt : String) : String :=
  match dd_record.find? (fun p => p.1 = key) with
  | some p => p.2
  | none => dflt

def get_file_name (dd_record : DDRecord) : String := ddGet dd_record "file_name" ""

def get_folder_name (dd_record : DDRecord) : String := ddGet dd_record "file_folder_name" ""

def get_sub_folder_name (dd_record : DDRecord) : String := ddGet dd_record "sub_folder_name" ""

def get_uuid (dd_record : DDRecord) : String := ddGet dd_record "uuid" ""

def get_asset_type (dd_record : DDRecord) : String := ddGet dd_record "asset_type" ""

def get_media_type (dd_record : DDRecord) : String := ddGet dd_record "media_type" ""

def get_audio_class (dd_record : DDRecord) : String := ddGet dd_record "audio_class" ""

/-! ### `utils.py`: SRU record filtering -/

/-- Forward declaration of the metadata value type, used by the DCP/DPX
field bundles below and by the merger. -/
inductive MValue where
  | str : String → MValue
  | strList : List String → MValue
deriving Repr, DecidableEq

/-- `digital_data.get_dcp_info`. -/
def get_dcp_info (dd_record : DDRecord) : List (String × MValue) :=
  [("file_name", .str ""),
   ("folder_name", .str (get_folder_name dd_record)),
   ("sub_folder_name", .str (get_sub_folder_name dd_record))]

/-- `digital_data.get_dpx_info`. -/
def get_dpx_info (dd_record : DDRecord) : List (String × MValue) :=
  [("file_name", .str ""),
   ("folder_name", .str (get_folder_name dd_record))]

/-- The AVA loop body of `filter_by_inventory_number_and_library` for one
record: `get_subfields("b")[0]` and `get_subfields("d")[0]` raise
`IndexError` when the subfield is absent, modelled as `Except.error`.
Returns whether some AVA field matched (Python `break`). -/
def checkAvaFields (inventory_number : String) : List MarcField → Except String Bool
  | [] => .ok false
  | field_ava :: rest =>
    match (get_subfields field_ava "b").head? with
    | none => .error "IndexError"
    | some b =>
      match (get_subfields field_ava "d").head? with
      | none => .error "IndexError"
      | some call_number =>
        if pyLower b = "ftva" && is_inventory_number_match inventory_number call_number then
          .ok true
        else checkAvaFields inventory_number rest

/-- `utils.filter_by_inventory_number_and_library`. -/
def filter_by_inventory_number_and_library (records : List MarcRecord)
    (inventory_number : String) : Except String (List MarcRecord) :=
  match records with
  | [] => .ok []
  | record :: rest =>
    match checkAvaFields inventory_number (get_fields record "AVA") with
    | .error e => .error e
    | .ok keep =>
      match filter_by_inventory_number_and_library rest inventory_number with
      | .error e => .error e
      | .ok l => .ok (if keep then record :: l else l)

/-! ### `filemaker.py`: record accessors and `mams_metadata.py` -/

/-- A Filemaker record, restricted to the fields the code reads. -/
structure FMRecord where
  inventory_id : String
  inventory_no : String
  production_type : String
deriving Repr, DecidableEq

/-- `filemaker.get_inventory_id`. -/
def get_inventory_id (fm_record : FMRecord) : String := fm_record.inventory_id

/-- `filemaker.get_inventory_number`. -/
def get_inventory_number (fm_record : FMRecord) : String := fm_record.inventory_no

/-- The canonical metadata record: a Python dict with heterogeneous values. -/
abbrev MDict := List (String × MValue)

/-- Python dict assignment `d[k] = v`: replace in place or append. -/
def mdictSet (d : MDict) (k : String) (v : MValue) : MDict :=
  if d.any (fun p => p.1 = k) then d.map (fun p => if p.1 = k then (k, v) else p)
  else d ++ [(k, v)]

/-- Python `d.update(u)` / `{**d, **u}`: fold `mdictSet` over `u`. -/
def mdictUpdate (d : MDict) (u : MDict) : MDict :=
  u.foldl (fun acc p => mdictSet acc p.1 p.2) d

/-- Key membership in a metadata dict. -/
def mdictHasKey (d : MDict) (k : String) : Bool := d.any (fun p => p.1 = k)

/-- Key membership through the `Except` wrapper (false on error). -/
def mdictHasKeyE (e : Except String MDict) (k : String) : Bool :=
  match e with
  | .error _ => false
  | .ok d => mdictHasKey d k

/-- Python truthiness of an `Optional[str]`: `None` and `""` are falsy. -/
def pyTruthyOptStr (o : Option String) : Bool :=
  match o with
  | none => false
  | some s => s ≠ ""

/-- `mams_metadata.get_mams_metadata`.  The spacy model, the language table
and the dateutil parser are passed as parameters (see the module header).
The `ValueError` raised by `get_title_info` propagates as `Except.error`. -/
def get_mams_metadata (model : String → List (String × String))
    (language_map : List (String × String)) (dateutil : String → Option String)
    (bib_record : MarcRecord) (filemaker_record : FMRecord)
    (digital_data_record : DDRecord) (match_asset_uuid : Option String) :
    Except String MDict :=
  let is_series := is_series_production_type filemaker_record.production_type
  match get_title_info bib_record is_series with
  | .error e => .error e
  | .ok titles =>
    let date_info := get_date_info dateutil bib_record
    let base : MDict := [
      ("alma_bib_id", .str (get_bib_id bib_record)),
      ("inventory_id", .str (get_inventory_id filemaker_record)),
      ("uuid", .str (get_uuid digital_data_record)),
      ("inventory_numbers", .strList [get_inventory_number filemaker_record]),
      ("creators", .strList (get_creators bib_record model)),
      ("language", .str (get_language_name language_map bib_record)),
      ("file_name", .str (get_file_name digital_data_record)),
      ("asset_type", .str (get_asset_type digital_data_record)),
      ("media_type", .str (get_media_type digital_data_record)),
      ("audio_class", .str (get_audio_class digital_data_record))]
    let metadata := mdictUpdate base (titles.map (fun p => (p.1, MValue.str p.2)))
    let metadata := mdictSet metadata date_info.1 (.str date_info.2)
    let metadata :=
      if pyTruthyOptStr match_asset_uuid then
        mdictSet metadata "match_asset" (.str (match_asset_uuid.getD ""))
      else metadata
    let file_type := ddGet digital_data_record "file_type" ""
    let metadata :=
      if file_type = "DCP" then mdictUpdate metadata (get_dcp_info digital_data_record)
      else if file_type = "DPX" then mdictUpdate metadata (get_dpx_info digital_data_record)
      else metadata
    .ok metadata

/-- Whether an `Except` computation returned normally (no exception). -/
def exceptIsOk {α : Type} (e : Except String α) : Bool :=
  match e with
  | .ok _ => true
  | .error _ => false

/-! ### Helper lemmas on the string primitives -/

theorem dropWhileEqSelfOfAll {α : Type} (p : α → Bool) (l : List α)
    (h : ∀ a ∈ l, p a = false) : l.dropWhile p = l := by
  cases l with
  | nil => rfl
  | cons a as =>
    have ha := h a (by simp)
    simp [List.dropWhile_cons, ha]

theorem stringEqOfData {a b : String} (h : a.data = b.data) : a = b := by
  cases a
  cases b
  cases h
  rfl

theorem rstripIfEqSelf {p : Char → Bool} {s : String}
    (h : ∀ c ∈ s.data, p c = false) : rstripIf p s = s := by
  unfold rstripIf
  rw [dropWhileEqSelfOfAll p _ (fun c hc => h c (List.mem_reverse.mp hc)),
    List.reverse_reverse]

theorem lstripIfEqSelf {p : Char → Bool} {s : String}
    (h : ∀ c ∈ s.data, p c = false) : lstripIf p s = s := by
  unfold lstripIf
  rw [dropWhileEqSelfOfAll p _ h]

theorem stripIfEqSelf {p : Char → Bool} {s : String}
    (h : ∀ c ∈ s.data, p c = false) : stripIf p s = s := by
  unfold stripIf
  rw [lstripIfEqSelf h, rstripIfEqSelf h]

theorem neOfToNatNe {c d : Char} (h : c.toNat ≠ d.toNat) : c ≠ d :=
  fun e => h (congrArg Char.toNat e)

/-- A digit or hyphen character is not trailing punctuation, not whitespace,
and not a square bracket. -/
theorem yearCharNotSpecial {c : Char} (h : (c.isDigit || c = '-') = true) :
    isDateTrailingPunct c = false ∧ isPyWhitespace c = false ∧ c ≠ '[' ∧ c ≠ ']' := by
  rcases (by simpa using h : c.isDigit = true ∨ c = '-') with hd | he
  · simp only [Char.isDigit, Bool.and_eq_true, decide_eq_true_eq] at hd
    obtain ⟨h1, h2⟩ := hd
    have h1n : 48 ≤ c.toNat := h1
    have h2n : c.toNat ≤ 57 := h2
    refine ⟨?_, ?_, neOfToNatNe (by have e : Char.toNat '[' = 91 := rfl; omega),
      neOfToNatNe (by have e : Char.toNat ']' = 93 := rfl; omega)⟩
    · have p1 : c ≠ '.' := neOfToNatNe (by have e : Char.toNat '.' = 46 := rfl; omega)
      have p2 : c ≠ ',' := neOfToNatNe (by have e : Char.toNat ',' = 44 := rfl; omega)
      have p3 : c ≠ ';' := neOfToNatNe (by have e : Char.toNat ';' = 59 := rfl; omega)
      have p4 : c ≠ ':' := neOfToNatNe (by have e : Char.toNat ':' = 58 := rfl; omega)
      have p5 : c ≠ '!' := neOfToNatNe (by have e : Char.toNat '!' = 33 := rfl; omega)
      have p6 : c ≠ '?' := neOfToNatNe (by have e : Char.toNat '?' = 63 := rfl; omega)
      simp [isDateTrailingPunct, p1, p2, p3, p4, p5, p6]
    · have w1 : c ≠ ' ' := neOfToNatNe (by have e : Char.toNat ' ' = 32 := rfl; omega)
      have w2 : c ≠ '\t' := neOfToNatNe (by have e : Char.toNat '\t' = 9 := rfl; omega)
      have w3 : c ≠ '\n' := neOfToNatNe (by have e : Char.toNat '\n' = 10 := rfl; omega)
      have w4 : c ≠ '\r' := neOfToNatNe (by have e : Char.toNat '\r' = 13 := rfl; omega)
      have w5 : c.toNat ≠ 11 := by omega
      have w6 : c.toNat ≠ 12 := by omega
      simp [isPyWhitespace, w1, w2, w3, w4, w5, w6]
  · subst he
    refine ⟨by decide, by decide, by decide, by decide⟩

/-- On a 4-character string of digits and hyphens, possibly wrapped in square
brackets, `parse_date` is the identity: the early-return branch keeps the
stripped core verbatim and re-wraps the brackets. -/
theorem parseDateFixedOnYears (dateutil : String → Option String) (x w : String)
    (hx : x = w ∨ x = ⟨'[' :: w.data ++ [']']⟩)
    (hw4 : w.length = 4)
    (hchars : w.data.all (fun c => c.isDigit || c = '-') = true) :
    parse_date dateutil x = x := by
  have hall : ∀ c ∈ w.data, (c.isDigit || c = '-') = true := by
    simpa [List.all_eq_true] using hchars
  have hspec := fun c hc => yearCharNotSpecial (hall c hc)
  have hnb1 : '[' ∉ w.data := fun hm => (hspec _ hm).2.2.1 rfl
  have hnb2 : ']' ∉ w.data := fun hm => (hspec _ hm).2.2.2 rfl
  have hcore : pyStrip (rstripIf isDateTrailingPunct w) = w := by
    rw [rstripIfEqSelf (fun c hc => (hspec c hc).1)]
    exact stripIfEqSelf (fun c hc => (hspec c hc).2.1)
  have hcond : (decide (w.length = 4) &&
      (w.data.all Char.isDigit || w.data.contains '-')) = true := by
    simp only [Bool.and_eq_true, decide_eq_true_eq]
    refine ⟨hw4, ?_⟩
    by_cases hd : w.data.all Char.isDigit = true
    · simp [hd]
    · simp only [Bool.or_eq_true]
      refine Or.inr ?_
      rw [List.all_eq_true] at hd
      push_neg at hd
      obtain ⟨c, hc, hcd⟩ := hd
      have hor := hall c hc
      have hch : c = '-' := by
        rcases (by simpa using hor : c.isDigit = true ∨ c = '-') with h1 | h2
        · exact absurd h1 (by simpa using hcd)
        · exact h2
      subst hch
      simp only [List.contains, List.elem_eq_mem, decide_eq_true_eq]
      exact hc
  rcases hx with rfl | rfl
  · have h1 : x.data.contains '[' = false := by
      simp only [List.contains, List.elem_eq_mem, decide_eq_false_iff_not]
      exact hnb1
    unfold parse_date
    simp only [h1, Bool.false_and, Bool.false_eq_true, if_false, hcore, hcond, if_true]
  · have hdata : (⟨'[' :: w.data ++ [']']⟩ : String).data = '[' :: w.data ++ [']'] := rfl
    have hb : ((⟨'[' :: w.data ++ [']']⟩ : String).data.contains '[' &&
        (⟨'[' :: w.data ++ [']']⟩ : String).data.contains ']') = true := by
      rw [hdata]
      simp only [Bool.and_eq_true, List.contains, List.elem_eq_mem, decide_eq_true_eq]
      exact ⟨by simp, by simp⟩
    have hrb : removeBrackets ⟨'[' :: w.data ++ [']']⟩ = w := by
      apply stringEqOfData
      unfold removeBrackets
      show List.filter (fun c => !(decide (c = '[') || decide (c = ']')))
        ('[' :: w.data ++ [']']) = w.data
      have q1 : (!(('[' : Char) = '[' || ('[' : Char) = ']') : Bool) = false := by decide
      have q2 : (!((']' : Char) = '[' || (']' : Char) = ']') : Bool) = false := by decide
      simp only [List.filter_cons, List.filter_append, q1, if_false]
      rw [List.filter_eq_self.mpr (fun c hc => by
        have h3 := (hspec c hc).2.2
        simp [h3.1, h3.2])]
      simp [List.filter_cons, q2]
    unfold parse_date
    simp only [hb, if_true, hrb, hcore, hcond]
    apply stringEqOfData
    simp [hdata]

/-! ### Helper lemmas on the date search loops -/

theorem find260cFirst : ∀ (l₁ : List MarcField) (f : MarcField) (l₂ : List MarcField)
    (c : String) (cs : List String),
    (∀ g ∈ l₁, g.indicator1 = " " → g.indicator2 = " " → get_subfields g "c" = []) →
    f.indicator1 = " " → f.indicator2 = " " → get_subfields f "c" = c :: cs →
    find260c (l₁ ++ f :: l₂) = some ⟨pyStrip c, "release_broadcast_date"⟩ := by
  intro l₁
  induction l₁ with
  | nil =>
    intro f l₂ c cs _ hf1 hf2 hfc
    simp [find260c, hf1, hf2, hfc]
  | cons g gs ih =>
    intro f l₂ c cs h hf1 hf2 hfc
    have hrec := ih f l₂ c cs (fun x hx => h x (List.mem_cons_of_mem g hx)) hf1 hf2 hfc
    by_cases hg1 : g.indicator1 = " "
    · by_cases hg2 : g.indicator2 = " "
      · have hge := h g (List.mem_cons_self g gs) hg1 hg2
        simpa [find260c, hg1, hg2, hge] using hrec
      · simpa [find260c, hg1, hg2] using hrec
    · simpa [find260c, hg1] using hrec

theorem find260cNone : ∀ (l : List MarcField),
    (∀ g ∈ l, g.indicator1 = " " → g.indicator2 = " " → get_subfields g "c" = []) →
    find260c l = none := by
  intro l
  induction l with
  | nil => intro _; rfl
  | cons g gs ih =>
    intro h
    have hrec := ih (fun x hx => h x (List.mem_cons_of_mem g hx))
    by_cases hg1 : g.indicator1 = " "
    · by_cases hg2 : g.indicator2 = " "
      · have hge := h g (List.mem_cons_self g gs) hg1 hg2
        simpa [find260c, hg1, hg2, hge] using hrec
      · simpa [find260c, hg1, hg2] using hrec
    · simpa [find260c, hg1] using hrec

theorem find264cSomeQualifier (ind : String) : ∀ (l : List MarcField),
    (∃ f ∈ l, f.indicator1 = " " ∧ f.indicator2 = ind ∧ get_subfields f "c" ≠ []) →
    ∃ s, find264c ind l = some ⟨s, qualifierMap ind⟩ := by
  intro l
  induction l with
  | nil => rintro ⟨f, hf, -⟩; exact absurd hf (List.not_mem_nil f)
  | cons g gs ih =>
    rintro ⟨f, hf, hq1, hq2, hq3⟩
    by_cases hg1 : g.indicator1 = " "
    · by_cases hg2 : g.indicator2 = ind
      · cases hgc : get_subfields g "c" with
        | cons c cs => exact ⟨pyStrip c, by simp [find264c, hg1, hg2, hgc]⟩
        | nil =>
          have hfm : f ∈ gs := by
            rcases List.mem_cons.mp hf with rfl | hm
            · exact absurd hgc hq3
            · exact hm
          obtain ⟨s, hs⟩ := ih ⟨f, hfm, hq1, hq2, hq3⟩
          exact ⟨s, by simpa [find264c, hg1, hg2, hgc] using hs⟩
      · have hfm : f ∈ gs := by
          rcases List.mem_cons.mp hf with rfl | hm
          · exact absurd hq2 hg2
          · exact hm
        obtain ⟨s, hs⟩ := ih ⟨f, hfm, hq1, hq2, hq3⟩
        exact ⟨s, by simpa [find264c, hg1, hg2] using hs⟩
    · have hfm : f ∈ gs := by
        rcases List.mem_cons.mp hf with rfl | hm
        · exact absurd hq1 hg1
        · exact hm
      obtain ⟨s, hs⟩ := ih ⟨f, hfm, hq1, hq2, hq3⟩
      exact ⟨s, by simpa [find264c, hg1] using hs⟩

/-! ### Claim theorems -/

/-- C1: Date resolution priority.  (1) For every record containing a
tag-260 field with both indicators blank and a date (`c`) subfield — the
first such occurrence being `f` — and also containing tag-264 fields with
first indicator blank and a date subfield, `get_date_info` returns the 260
date under qualifier `release_broadcast_date`.  (2) For every record with
no qualifying 260 but with blank-first-indicator 264 date fields whose
second indicators include both `1` and `2`, the returned qualifier is
`distribution_date`, per the second-indicator priority order 2, 1, 4, 0, 3. -/
theorem c1_date_resolution_priority (dateutil : String → Option String) (r : MarcRecord) :
    (∀ (l₁ l₂ : List MarcField) (f : MarcField) (c : String) (cs : List String),
      get_fields r "260" = l₁ ++ f :: l₂ →
      (∀ g ∈ l₁, g.indicator1 = " " → g.indicator2 = " " → get_subfields g "c" = []) →
      f.indicator1 = " " → f.indicator2 = " " → get_subfields f "c" = c :: cs →
      (∃ g ∈ get_fields r "264", g.indicator1 = " " ∧ get_subfields g "c" ≠ []) →
      get_date_info dateutil r = ("release_broadcast_date", parse_date dateutil (pyStrip c))) ∧
    ((∀ g ∈ get_fields r "260",
        g.indicator1 = " " → g.indicator2 = " " → get_subfields g "c" = []) →
      (∃ g ∈ get_fields r "264",
        g.indicator1 = " " ∧ g.indicator2 = "1" ∧ get_subfields g "c" ≠ []) →
      (∃ g ∈ get_fields r "264",
        g.indicator1 = " " ∧ g.indicator2 = "2" ∧ get_subfields g "c" ≠ []) →
      (get_date_info dateutil r).1 = "distribution_date") := by
  constructor
  · intro l₁ l₂ f c cs hsplit hblock hf1 hf2 hfc _
    have h260 := find260cFirst l₁ f l₂ c cs hblock hf1 hf2 hfc
    unfold get_date_info get_date_from_bib
    rw [hsplit, h260]
    simp
  · intro hno h1 h2
    have h260 : find260c (get_fields r "260") = none := find260cNone _ hno
    have hany : (get_fields r "264").any (fun f => f.indicator1 = " ") = true := by
      rcases h2 with ⟨g, hg, hq⟩
      exact List.any_eq_true.mpr ⟨g, hg, by simp [hq.1]⟩
    obtain ⟨s, hs⟩ := find264cSomeQualifier "2" (get_fields r "264") h2
    unfold get_date_info get_date_from_bib
    rw [h260]
    simp only [hany, Bool.not_true, Bool.false_eq_true, if_false, indicator_priority,
      find264ByPriority, hs]
    simp [qualifierMap]

/-- Witness for C1: a record with a qualifying 260 and a qualifying 264
resolves to the 260 date (`release_broadcast_date`), and a record with only
264 fields carrying second indicators 1 and 2 resolves to
`distribution_date`. -/
theorem c1_date_resolution_priority_witness :
    get_date_info (fun _ => none)
        [⟨"260", " ", " ", [("c", "1999.")], ""⟩, ⟨"264", " ", "1", [("c", "2000")], ""⟩] =
      ("release_broadcast_date", parse_date (fun _ => none) (pyStrip "1999.")) ∧
    (get_date_info (fun _ => none)
        [⟨"264", " ", "1", [("c", "2000")], ""⟩, ⟨"264", " ", "2", [("c", "2001")], ""⟩]).1 =
      "distribution_date" :=
  ⟨(c1_date_resolution_priority (fun _ => none)
        [⟨"260", " ", " ", [("c", "1999.")], ""⟩, ⟨"264", " ", "1", [("c", "2000")], ""⟩]).1
      [] [] ⟨"260", " ", " ", [("c", "1999.")], ""⟩ "1999." [] rfl
      (by intro g hg; exact absurd hg (List.not_mem_nil g)) rfl rfl rfl
      ⟨⟨"264", " ", "1", [("c", "2000")], ""⟩, by decide, rfl, by decide⟩,
    (c1_date_resolution_priority (fun _ => none)
        [⟨"264", " ", "1", [("c", "2000")], ""⟩, ⟨"264", " ", "2", [("c", "2001")], ""⟩]).2
      (by decide) (by decide) (by decide)⟩

/-- C9: Date-formatting idempotence.  For every string `x` that is a bare
4-digit year (all digits) or a 4-character hyphen-uncertain year (a
4-character string of digits and hyphens containing a hyphen — uncertain-year
notation such as `202-`), possibly bracketed,
`parse_date (parse_date x) = parse_date x`, for any behaviour of the
external dateutil parser. -/
theorem c9_parse_date_idempotent (dateutil : String → Option String) (x w : String)
    (hx : x = w ∨ x = ⟨'[' :: w.data ++ [']']⟩)
    (hw4 : w.length = 4)
    (hchars : w.data.all (fun c => c.isDigit || c = '-') = true) :
    parse_date dateutil (parse_date dateutil x) = parse_date dateutil x := by
  rw [parseDateFixedOnYears dateutil x w hx hw4 hchars,
    parseDateFixedOnYears dateutil x w hx hw4 hchars]

/-- Witness for C9 at the bracketed uncertain year `"[202-]"` and the bare
year `"1999"`. -/
theorem c9_parse_date_idempotent_witness :
    parse_date (fun _ => none) (parse_date (fun _ => none) "[202-]") =
        parse_date (fun _ => none) "[202-]" ∧
      parse_date (fun _ => none) (parse_date (fun _ => none) "1999") =
        parse_date (fun _ => none) "1999" :=
  ⟨c9_parse_date_idempotent (fun _ => none) "[202-]" "202-" (Or.inr (by decide))
      (by decide) (by decide),
    c9_parse_date_idempotent (fun _ => none) "1999" "1999" (Or.inl rfl)
      (by decide) (by decide)⟩

/-- C8: Inventory/call-number match rule.  `_is_inventory_number_match`
returns true iff the two are equal verbatim, or the inventory number starts
with one of the fixed prefixes and appending one of the fixed suffixes to it
yields the call number; plus the three concrete examples from the spec. -/
theorem c8_inventory_number_match_rule :
    (∀ inventory_number call_number : String,
      is_inventory_number_match inventory_number call_number = true ↔
        (inventory_number = call_number ∨
          ∃ p ∈ inv_no_prefixList, pyStartsWith inventory_number p = true ∧
            ∃ s ∈ call_no_suffixes, inventory_number ++ s = call_number)) ∧
    is_inventory_number_match "DVD123" "DVD123 T" = true ∧
    is_inventory_number_match "ABC" "ABC" = true ∧
    is_inventory_number_match "ABC" "DEF" = false := by
  refine ⟨?_, rfl, rfl, rfl⟩
  intro inventory_number call_number
  unfold is_inventory_number_match
  by_cases h : inventory_number = call_number
  · simp [h]
  · simp only [h, if_false, List.any_eq_true, Bool.and_eq_true, decide_eq_true_eq,
      false_or]

/-- C3 counterexample: the claim predicts substring containment, so the
segment `"television series (drama)"` would classify as a series; the code
tests whole-segment membership and classifies it as not a series. -/
theorem c3_series_substring_counterexample :
    is_series_production_type "television series (drama)" = false ∧
      is_series_production_type_specReading "television series (drama)" = true :=
  ⟨rfl, rfl⟩

/-- C3 amended: `is_series_production_type` lower-cases, splits on carriage
returns and trims each segment, then returns true iff some segment is
*exactly equal* to one of the keywords `television series, mini-series,
serials, news` (whole-segment equality, not substring containment). -/
theorem c3_series_exact_membership (production_type : String) :
    is_series_production_type production_type = true ↔
      ∃ segment ∈ cleanup_production_type production_type,
        segment ∈ series_keywords := by
  unfold is_series_production_type
  simp only [List.any_eq_true, List.contains, List.elem_eq_mem, decide_eq_true_eq]
  constructor
  · rintro ⟨k, hk, hm⟩
    exact ⟨k, hm, hk⟩
  · rintro ⟨seg, hseg, hm⟩
    exact ⟨seg, hm, hseg⟩

/-- C5 counterexample: the claim says only trailing `.,;:!?` (plus
whitespace and surrounding brackets) are removed and that a trailing hyphen
is kept; the code right-strips all of Python `string.punctuation`, so
`["abc-"]` becomes `["abc"]`, while the spec's reading keeps `"abc-"`. -/
theorem c5_strip_counterexample :
    strip_whitespace_and_punctuation ["abc-"] = ["abc"] ∧
      strip_whitespace_and_punctuation_specReading ["abc-"] = ["abc-"] :=
  ⟨rfl, rfl⟩

/-- C5 amended: `strip_whitespace_and_punctuation` returns a list of the
same length and order in which each element equals the input element with
its trailing characters among Python `string.punctuation` and the space
character stripped, then surrounding square brackets and spaces stripped
again (so trailing hyphens, parentheses and other ASCII punctuation *are*
removed); the function is pure and total. -/
theorem c5_strip_contract (items : List String) :
    (strip_whitespace_and_punctuation items).length = items.length ∧
    ∀ i : Nat, (strip_whitespace_and_punctuation items)[i]? =
      (items[i]?).map
        (fun item => stripIf isBracketOrSpace (rstripIf isPunctOrSpace item)) := by
  unfold strip_whitespace_and_punctuation
  exact ⟨List.length_map _ _, fun i => List.getElem?_map _ _ i⟩

/-! ### Helper lemmas on title composition -/

theorem appendNeEmptyLeft {a : String} (s : String) (h : a ≠ "") : a ++ s ≠ "" := by
  intro e
  have hd : a.data ++ s.data = [] := by
    have := congrArg String.data e
    simpa using this
  exact h (stringEqOfData (by simp [(List.append_eq_nil.mp hd).1]))

theorem sdictSetNilTitle (v : String) : sdictSet [] "title" v = [("title", v)] := rfl

theorem sdictSetSeries (t m : String) :
    sdictSet [("title", t)] "series_title" m = [("title", t), ("series_title", m)] := rfl

theorem sdictSetEpisode (t m e : String) :
    sdictSet [("title", t), ("series_title", m)] "episode_title" e =
      [("title", t), ("series_title", m), ("episode_title", e)] := rfl

theorem composeTitleCasesMainOnly (main : String) (is_series : Bool) (hm : main ≠ "") :
    composeTitleCases main "" "" is_series = [("title", main)] := by
  simp [composeTitleCases, titleCase1, titleCase2, titleCase3, titleCase4, titleCase5,
    hm, sdictSetNilTitle]

theorem composeTitleCasesFull (main name number : String) (is_series : Bool)
    (hm : main ≠ "") (hp : name ≠ "") (hn : number ≠ "") :
    composeTitleCases main name number is_series =
      [("title", main ++ ". " ++ name ++ ". " ++ number), ("series_title", main),
       ("episode_title", name ++ ". " ++ number)] := by
  simp [composeTitleCases, titleCase1, titleCase2, titleCase3, titleCase4, titleCase5,
    hm, hp, hn, sdictSetNilTitle, sdictSetSeries, sdictSetEpisode]

theorem memSdictSet {d : List (String × String)} {k v : String} {p : String × String}
    (h : p ∈ sdictSet d k v) : p = (k, v) ∨ p ∈ d := by
  unfold sdictSet at h
  by_cases ha : d.any (fun q => q.1 = k) = true
  · rw [if_pos ha] at h
    obtain ⟨q, hq, he⟩ := List.mem_map.mp h
    by_cases hqk : q.1 = k
    · rw [if_pos hqk] at he
      exact Or.inl he.symm
    · rw [if_neg hqk] at he
      exact Or.inr (he ▸ hq)
  · rw [if_neg ha] at h
    rcases List.mem_append.mp h with hm | hm
    · exact Or.inr hm
    · exact Or.inl (List.mem_singleton.mp hm)

theorem keysOkSdictSet {P : String × String → Prop} {d : List (String × String)}
    {k v : String} (hd : ∀ p ∈ d, P p) (hk : P (k, v)) : ∀ p ∈ sdictSet d k v, P p := by
  intro p hp
  rcases memSdictSet hp with rfl | hp
  · exact hk
  · exact hd p hp

theorem keysOkNil {P : String × String → Prop} : ∀ p ∈ ([] : List (String × String)), P p :=
  fun p hp => absurd hp (List.not_mem_nil p)

theorem keysOkIte {P : String × String → Prop} {c : Prop} [Decidable c]
    {a b : List (String × String)}
    (ha : ∀ p ∈ a, P p) (hb : ∀ p ∈ b, P p) :
    ∀ p ∈ (if c then a else b), P p := by
  split
  · exact ha
  · exact hb

theorem composeTitleCasesKeys (main name number : String) (is_series : Bool) :
    ∀ p ∈ composeTitleCases main name number is_series,
      p.1 = "title" ∨ p.1 = "series_title" ∨ p.1 = "episode_title" := by
  unfold composeTitleCases titleCase1 titleCase2 titleCase3 titleCase4 titleCase5
  repeat
    first
    | exact keysOkNil
    | refine keysOkSdictSet ?_ (by simp)
    | refine keysOkIte ?_ ?_

theorem getTitleInfoKeys (r : MarcRecord) (is_series : Bool)
    (d : List (String × String)) (h : get_title_info r is_series = .ok d) :
    ∀ p ∈ d, p.1 = "title" ∨ p.1 = "series_title" ∨ p.1 = "episode_title" := by
  unfold get_title_info at h
  cases hr : recordGet r "245" with
  | none => rw [hr] at h; cases h
  | some f =>
    rw [hr] at h
    by_cases hm : get_first_stripped (get_subfields f "a") = ""
    · simp [hm] at h
    · simp only [hm, if_false] at h
      cases h
      exact composeTitleCasesKeys _ _ _ _

/-- C2: Title composition.  With `a`, `b`, `p`, `n` the normalized first
`245` subfields and `main` equal to `a` (with `". " ++ b` appended when `b`
is nonempty): if `p` and `n` are empty the result is exactly
`{title: main}` with no series/episode keys, and if `a`, `p`, `n` are all
nonempty the result is `title = "main. p. n"`, `series_title = main`,
`episode_title = "p. n"`. -/
theorem c2_title_composition (r : MarcRecord) (is_series : Bool) (f : MarcField)
    (a b p n main : String)
    (hf : recordGet r "245" = some f)
    (ha : a = get_first_stripped (get_subfields f "a"))
    (hb : b = get_first_stripped (get_subfields f "b"))
    (hp : p = get_first_stripped (get_subfields f "p"))
    (hn : n = get_first_stripped (get_subfields f "n"))
    (hmain : main = if b ≠ "" then a ++ ". " ++ b else a)
    (hane : a ≠ "") :
    (p = "" → n = "" → get_title_info r is_series = .ok [("title", main)]) ∧
    (p ≠ "" → n ≠ "" → get_title_info r is_series =
      .ok [("title", main ++ ". " ++ p ++ ". " ++ n), ("series_title", main),
           ("episode_title", p ++ ". " ++ n)]) := by
  have hmne : main ≠ "" := by
    rw [hmain]
    by_cases hbe : b ≠ ""
    · rw [if_pos hbe]
      exact appendNeEmptyLeft b (appendNeEmptyLeft ". " hane)
    · rw [if_neg hbe]
      exact hane
  have hbody : get_title_info r is_series =
      .ok (composeTitleCases main p n is_series) := by
    unfold get_title_info
    rw [hf]
    simp only [← ha, ← hb, ← hp, ← hn, hane, if_false, ← hmain]
  constructor
  · intro hp0 hn0
    rw [hbody, hp0, hn0, composeTitleCasesMainOnly main is_series hmne]
  · intro hp1 hn1
    rw [hbody, composeTitleCasesFull main p n is_series hmne hp1 hn1]

/-- Witness for C2 at two concrete records: one with only `245 $a` (and
`$b`), one with `$a`, `$p` and `$n`. -/
theorem c2_title_composition_witness :
    get_title_info [⟨"245", "0", "0", [("a", "Main Title :"), ("b", "Remainder /")], ""⟩]
        false = .ok [("title", "Main Title. Remainder")] ∧
    get_title_info
        [⟨"245", "0", "0",
          [("a", "Main Title."), ("p", "Name of Part,"), ("n", "Number of Part.")], ""⟩]
        true =
      .ok [("title", "Main Title. Name of Part. Number of Part"),
           ("series_title", "Main Title"),
           ("episode_title", "Name of Part. Number of Part")] :=
  ⟨(c2_title_composition
        [⟨"245", "0", "0", [("a", "Main Title :"), ("b", "Remainder /")], ""⟩] false
        ⟨"245", "0", "0", [("a", "Main Title :"), ("b", "Remainder /")], ""⟩
        "Main Title" "Remainder" "" "" "Main Title. Remainder"
        rfl rfl rfl rfl rfl rfl (by decide)).1 rfl rfl,
    (c2_title_composition
        [⟨"245", "0", "0",
          [("a", "Main Title."), ("p", "Name of Part,"), ("n", "Number of Part.")], ""⟩] true
        ⟨"245", "0", "0",
          [("a", "Main Title."), ("p", "Name of Part,"), ("n", "Number of Part.")], ""⟩
        "Main Title" "" "Name of Part" "Number of Part" "Main Title"
        rfl rfl rfl rfl rfl rfl (by decide)).2 (by decide) (by decide)⟩

/-- C4 counterexample: a record with a qualifying `246` alternate-title
field (first indicator 0, second blank, nonempty `$a`) yields a title
bundle with no `alternative_titles` key, although the collection the claim
describes is nonempty: `get_title_info` performs no `246` extraction. -/
theorem c4_alternative_titles_counterexample :
    alternative_titles_specReading
        [⟨"245", "0", "0", [("a", "Main Title")], ""⟩,
         ⟨"246", "0", " ", [("a", "Alt Title")], ""⟩] = ["Alt Title"] ∧
    get_title_info
        [⟨"245", "0", "0", [("a", "Main Title")], ""⟩,
         ⟨"246", "0", " ", [("a", "Alt Title")], ""⟩] false =
      .ok [("title", "Main Title")] :=
  ⟨rfl, rfl⟩

/-- C4 amended: the title bundle returned by `get_title_info` never
contains an `alternative_titles` key (the code extracts nothing from `246`
fields), so the key is absent even when qualifying `246` occurrences
exist. -/
theorem c4_no_alternative_titles (r : MarcRecord) (is_series : Bool)
    (d : List (String × String)) (h : get_title_info r is_series = .ok d) :
    sdictHasKey d "alternative_titles" = false := by
  have hk := getTitleInfoKeys r is_series d h
  unfold sdictHasKey
  rw [List.any_eq_false]
  intro p hp
  rcases hk p hp with e | e | e <;> simp [e]

/-- Witness for C4 at a record carrying a qualifying `246` field. -/
theorem c4_no_alternative_titles_witness :
    sdictHasKey [("title", "Main Title")] "alternative_titles" = false :=
  c4_no_alternative_titles
    [⟨"245", "0", "0", [("a", "Main Title")], ""⟩,
     ⟨"246", "0", " ", [("a", "Alt Title")], ""⟩] false
    [("title", "Main Title")] rfl

/-- C7: Title error conditions and propagation.  A record with no `245`
field fails with the missing-title-statement error; a record whose `245`
has `$a` absent or empty after normalization fails with the
missing-main-title error; both messages carry the record's `001` value (or
`""`); and any such failure propagates unhandled through
`get_mams_metadata`. -/
theorem c7_title_errors_and_propagation :
    (∀ (r : MarcRecord) (is_series : Bool), recordGet r "245" = none →
      get_title_info r is_series =
        .error ("No 245 field found in bib record " ++ get_record_id r ++ ".")) ∧
    (∀ (r : MarcRecord) (is_series : Bool) (f : MarcField),
      recordGet r "245" = some f →
      get_first_stripped (get_subfields f "a") = "" →
      get_title_info r is_series =
        .error ("No 245 $a found in bib record " ++ get_record_id r ++ ".")) ∧
    (∀ (model : String → List (String × String))
      (language_map : List (String × String)) (dateutil : String → Option String)
      (bib_record : MarcRecord) (filemaker_record : FMRecord)
      (digital_data_record : DDRecord) (match_asset_uuid : Option String) (e : String),
      get_title_info bib_record
          (is_series_production_type filemaker_record.production_type) = .error e →
      get_mams_metadata model language_map dateutil bib_record filemaker_record
          digital_data_record match_asset_uuid = .error e) := by
  refine ⟨?_, ?_, ?_⟩
  · intro r is_series h
    unfold get_title_info
    rw [h]
  · intro r is_series f hf hm
    unfold get_title_info
    rw [hf]
    simp [hm]
  · intro model language_map dateutil bib fm dd mu e h
    simp only [get_mams_metadata, h]

/-- Witness for C7: a record with no `245`, a record whose `245` lacks a
usable `$a`, and propagation of the first error through
`get_mams_metadata`. -/
theorem c7_title_errors_and_propagation_witness :
    get_title_info [⟨"001", " ", " ", [], "99123"⟩] false =
      .error "No 245 field found in bib record 99123." ∧
    get_title_info
        [⟨"001", " ", " ", [], "99123"⟩, ⟨"245", "0", "0", [("c", "by X")], ""⟩] false =
      .error "No 245 $a found in bib record 99123." ∧
    get_mams_metadata (fun _ => []) [] (fun _ => none)
        [⟨"001", " ", " ", [], "99123"⟩] ⟨"7", "DVD7", "FEATURE"⟩ [] none =
      .error "No 245 field found in bib record 99123." :=
  ⟨c7_title_errors_and_propagation.1 [⟨"001", " ", " ", [], "99123"⟩] false rfl,
    c7_title_errors_and_propagation.2.1
      [⟨"001", " ", " ", [], "99123"⟩, ⟨"245", "0", "0", [("c", "by X")], ""⟩] false
      ⟨"245", "0", "0", [("c", "by X")], ""⟩ rfl rfl,
    c7_title_errors_and_propagation.2.2 (fun _ => []) [] (fun _ => none)
      [⟨"001", " ", " ", [], "99123"⟩] ⟨"7", "DVD7", "FEATURE"⟩ [] none
      "No 245 field found in bib record 99123."
      (c7_title_errors_and_propagation.1 [⟨"001", " ", " ", [], "99123"⟩] false rfl)⟩

/-! ### Helper lemmas on the SRU filter -/

theorem checkAvaFieldsOk (inventory_number : String) : ∀ (fs : List MarcField),
    (∀ f ∈ fs, get_subfields f "b" ≠ [] ∧ get_subfields f "d" ≠ []) →
    ∃ bl, checkAvaFields inventory_number fs = .ok bl := by
  intro fs
  induction fs with
  | nil => intro _; exact ⟨false, rfl⟩
  | cons f rest ih =>
    intro h
    obtain ⟨hb, hd⟩ := h f (List.mem_cons_self f rest)
    cases hbc : get_subfields f "b" with
    | nil => exact absurd hbc hb
    | cons b bs =>
      cases hdc : get_subfields f "d" with
      | nil => exact absurd hdc hd
      | cons d ds =>
        cases hm : (decide (pyLower b = "ftva") &&
            is_inventory_number_match inventory_number d) with
        | true => exact ⟨true, by simp [checkAvaFields, hbc, hdc, hm]⟩
        | false =>
          obtain ⟨bl, hbl⟩ := ih (fun g hg => h g (List.mem_cons_of_mem f hg))
          exact ⟨bl, by simp [checkAvaFields, hbc, hdc, hm, hbl]⟩

theorem exceptOkOfEq {α : Type} {e : Except String α} {l : α} (h : e = .ok l) :
    exceptIsOk e = true := by
  rw [h]
  rfl

theorem exceptOkExists {α : Type} {e : Except String α} (h : exceptIsOk e = true) :
    ∃ l, e = .ok l := by
  cases e with
  | ok l => exact ⟨l, rfl⟩
  | error msg => exact absurd h (by simp [exceptIsOk])

/-- C6 counterexample: the claim says `filter_by_inventory_number_and_library`
returns a result (does not raise) for a record whose AVA field lacks `$b` or
`$d`; the code indexes `get_subfields("b")[0]` and raises `IndexError`. -/
theorem c6_filter_absent_subfield_counterexample :
    filter_by_inventory_number_and_library
      [[⟨"AVA", " ", " ", [], ""⟩]] "DVD1" = .error "IndexError" := rfl

/-- C6 amended: absence of a field yields an empty/default value for the
extractors (e.g. a record with no 260/264 date fields yields the default
date bundle), and `filter_by_inventory_number_and_library` returns normally
when every AVA field carries `$b` and `$d`; but it *fails* (IndexError) for
a record list whose head record's first AVA field lacks the library-code
(`$b`) subfield. -/
theorem c6_absence_handling :
    (∀ (dateutil : String → Option String) (r : MarcRecord),
      get_fields r "260" = [] → get_fields r "264" = [] →
      get_date_info dateutil r = ("release_broadcast_date", parse_date dateutil "")) ∧
    (∀ (records : List MarcRecord) (inventory_number : String),
      (∀ rec ∈ records, ∀ f ∈ get_fields rec "AVA",
        get_subfields f "b" ≠ [] ∧ get_subfields f "d" ≠ []) →
      exceptIsOk (filter_by_inventory_number_and_library records inventory_number) = true) ∧
    (∀ (rec : MarcRecord) (rest : List MarcRecord) (inventory_number : String)
      (f : MarcField) (fs : List MarcField),
      get_fields rec "AVA" = f :: fs → get_subfields f "b" = [] →
      filter_by_inventory_number_and_library (rec :: rest) inventory_number =
        .error "IndexError") := by
  refine ⟨?_, ?_, ?_⟩
  · intro dateutil r h260 h264
    unfold get_date_info get_date_from_bib
    simp [h260, h264, find260c]
  · intro records inventory_number
    induction records with
    | nil => intro _; rfl
    | cons rec rest ih =>
      intro h
      obtain ⟨bl, hbl⟩ := checkAvaFieldsOk inventory_number (get_fields rec "AVA")
        (h rec (List.mem_cons_self rec rest))
      obtain ⟨l, hl⟩ := exceptOkExists (ih (fun g hg => h g (List.mem_cons_of_mem rec hg)))
      cases bl with
      | true =>
        have he : filter_by_inventory_number_and_library (rec :: rest) inventory_number =
            .ok (rec :: l) := by
          simp [filter_by_inventory_number_and_library, hbl, hl]
        exact exceptOkOfEq he
      | false =>
        have he : filter_by_inventory_number_and_library (rec :: rest) inventory_number =
            .ok l := by
          simp [filter_by_inventory_number_and_library, hbl, hl]
        exact exceptOkOfEq he
  · intro rec rest inventory_number f fs hava hb
    simp [filter_by_inventory_number_and_library, checkAvaFields, hava, hb]

/-- Witness for C6: a record with no date fields yields the default date
bundle; a well-formed AVA filter call returns normally; an AVA field with
no `$b` makes the filter fail. -/
theorem c6_absence_handling_witness :
    get_date_info (fun _ => none) [] =
      ("release_broadcast_date", parse_date (fun _ => none) "") ∧
    exceptIsOk (filter_by_inventory_number_and_library
      [[⟨"AVA", " ", " ", [("b", "ftva"), ("d", "DVD1")], ""⟩]] "DVD1") = true ∧
    filter_by_inventory_number_and_library
      [[⟨"AVA", " ", " ", [("d", "DVD1")], ""⟩]] "DVD1" = .error "IndexError" :=
  ⟨c6_absence_handling.1 (fun _ => none) [] rfl rfl,
    c6_absence_handling.2.1 [[⟨"AVA", " ", " ", [("b", "ftva"), ("d", "DVD1")], ""⟩]]
      "DVD1" (by decide),
    c6_absence_handling.2.2 [⟨"AVA", " ", " ", [("d", "DVD1")], ""⟩] [] "DVD1"
      ⟨"AVA", " ", " ", [("d", "DVD1")], ""⟩ [] rfl rfl⟩

/-! ### Helper lemmas on the metadata dict and date qualifiers -/

theorem mdictHasKeySetNe {d : MDict} {k v k'} (h : k ≠ k') :
    mdictHasKey (mdictSet d k (MValue.str v)) k' = mdictHasKey d k' := by
  unfold mdictSet mdictHasKey
  by_cases ha : d.any (fun p => p.1 = k) = true
  · rw [if_pos ha, List.any_map]
    congr 1
    funext p
    by_cases hpk : p.1 = k
    · simp [hpk, h, Ne.symm h]
    · simp [hpk]
  · rw [if_neg ha]
    simp only [List.any_append, List.any_cons, List.any_nil, Bool.or_false,
      decide_eq_false h, Bool.or_false]

theorem mdictHasKeyUpdateNe {d : MDict} {u : MDict} {k' : String}
    (h : ∀ p ∈ u, p.1 ≠ k') :
    mdictHasKey (mdictUpdate d u) k' = mdictHasKey d k' := by
  unfold mdictUpdate
  induction u generalizing d with
  | nil => rfl
  | cons a as ih =>
    simp only [List.foldl_cons]
    rw [ih (fun p hp => h p (List.mem_cons_of_mem a hp))]
    have ha := h a (List.mem_cons_self a as)
    unfold mdictSet mdictHasKey
    by_cases hb : d.any (fun p => p.1 = a.1) = true
    · rw [if_pos hb, List.any_map]
      congr 1
      funext p
      by_cases hpk : p.1 = a.1
      · simp [hpk, ha, Ne.symm ha]
      · simp [hpk]
    · rw [if_neg hb]
      simp only [List.any_append, List.any_cons, List.any_nil, Bool.or_false,
        decide_eq_false ha, Bool.or_false]

theorem find260cQualifier : ∀ (l : List MarcField) (d : DateDict),
    find260c l = some d → d.qualifier = "release_broadcast_date" := by
  intro l
  induction l with
  | nil => intro d h; cases h
  | cons g gs ih =>
    intro d h
    by_cases h1 : g.indicator1 = " "
    · by_cases h2 : g.indicator2 = " "
      · cases hc : get_subfields g "c" with
        | nil =>
          simp only [find260c, h1, h2, hc, decide_True, Bool.and_self, if_true] at h
          exact ih d h
        | cons c cs =>
          simp only [find260c, h1, h2, hc, decide_True, Bool.and_self, if_true,
            Option.some_inj] at h
          rw [← h]
      · simp only [find260c, h1, h2, decide_True, decide_eq_false h2, Bool.and_false,
          Bool.false_eq_true, if_false] at h
        exact ih d h
    · simp only [find260c, h1, decide_eq_false h1, Bool.false_and, Bool.false_eq_true,
        if_false] at h
      exact ih d h

theorem find264cQualifier (ind : String) : ∀ (l : List MarcField) (d : DateDict),
    find264c ind l = some d → d.qualifier = qualifierMap ind := by
  intro l
  induction l with
  | nil => intro d h; cases h
  | cons g gs ih =>
    intro d h
    by_cases h1 : g.indicator1 = " "
    · by_cases h2 : g.indicator2 = ind
      · cases hc : get_subfields g "c" with
        | nil =>
          simp only [find264c, h1, h2, hc, decide_True, Bool.and_self, if_true] at h
          exact ih d h
        | cons c cs =>
          simp only [find264c, h1, h2, hc, decide_True, Bool.and_self, if_true,
            Option.some_inj] at h
          rw [← h]
      · simp only [find264c, h1, h2, decide_True, decide_eq_false h2, Bool.and_false,
          Bool.false_eq_true, if_false] at h
        exact ih d h
    · simp only [find264c, h1, decide_eq_false h1, Bool.false_and, Bool.false_eq_true,
        if_false] at h
      exact ih d h

theorem find264ByPriorityQualifier : ∀ (inds : List String) (l : List MarcField)
    (d : DateDict), find264ByPriority inds l = some d →
    ∃ i ∈ inds, d.qualifier = qualifierMap i := by
  intro inds
  induction inds with
  | nil => intro l d h; cases h
  | cons i is ih =>
    intro l d h
    cases hc : find264c i l with
    | some d2 =>
      simp only [find264ByPriority, hc, Option.some_inj] at h
      exact ⟨i, List.mem_cons_self i is, h ▸ find264cQualifier i l d2 hc⟩
    | none =>
      simp only [find264ByPriority, hc] at h
      obtain ⟨j, hj, he⟩ := ih l d h
      exact ⟨j, List.mem_cons_of_mem i hj, he⟩

theorem getDateFromBibQualifierMem (r : MarcRecord) :
    (get_date_from_bib r).qualifier ∈
      ["", "release_broadcast_date", "distribution_date", "copyright_notice_date",
       "production_date", "manufacture_date"] := by
  unfold get_date_from_bib
  cases h260 : find260c (get_fields r "260") with
  | some d =>
    simp only [h260]
    simp [find260cQualifier _ d h260]
  | none =>
    simp only [h260]
    by_cases hany : ((get_fields r "264").any (fun f => f.indicator1 = " ")) = true
    · simp only [hany, Bool.not_true, Bool.false_eq_true, if_false]
      cases hp : find264ByPriority indicator_priority (get_fields r "264") with
      | some d =>
        simp only [hp]
        obtain ⟨i, hi, he⟩ := find264ByPriorityQualifier _ _ d hp
        fin_cases hi <;> simp [he, qualifierMap]
      | none => simp [hp]
    · have hf := eq_false_of_ne_true hany
      simp [hf]

theorem getDateInfoQualifierNe (dateutil : String → Option String) (r : MarcRecord) :
    (get_date_info dateutil r).1 ≠ "match_asset" := by
  unfold get_date_info
  have hmem := getDateFromBibQualifierMem r
  by_cases hq : (get_date_from_bib r).qualifier = ""
  · simp [hq]
  · simp only [hq, if_false]
    simp only [List.mem_cons, List.not_mem_nil, or_false] at hmem
    rcases hmem with e | e | e | e | e | e <;> simp [e] at hq ⊢

/-- C10: `get_mams_metadata` adds the `match_asset` field only for a truthy
`match_asset_uuid`: calling it with the empty string produces exactly the
same record as passing `None`, and that record has no `match_asset` key. -/
theorem c10_empty_match_asset_uuid (model : String → List (String × String))
    (language_map : List (String × String)) (dateutil : String → Option String)
    (bib_record : MarcRecord) (filemaker_record : FMRecord)
    (digital_data_record : DDRecord) :
    get_mams_metadata model language_map dateutil bib_record filemaker_record
        digital_data_record (some "") =
      get_mams_metadata model language_map dateutil bib_record filemaker_record
        digital_data_record none ∧
    mdictHasKeyE (get_mams_metadata model language_map dateutil bib_record
        filemaker_record digital_data_record (some "")) "match_asset" = false := by
  have hq := getDateInfoQualifierNe dateutil bib_record
  constructor
  · rfl
  · cases ht : get_title_info bib_record
        (is_series_production_type filemaker_record.production_type) with
    | error e => simp [get_mams_metadata, ht, mdictHasKeyE]
    | ok titles =>
      have htk : ∀ p ∈ titles.map (fun p => (p.1, MValue.str p.2)), p.1 ≠ "match_asset" := by
        intro p hp
        obtain ⟨q, hq2, rfl⟩ := List.mem_map.mp hp
        rcases getTitleInfoKeys bib_record _ titles ht q hq2 with e | e | e <;> simp [e]
      have hdcp : ∀ p ∈ get_dcp_info digital_data_record, p.1 ≠ "match_asset" := by
        intro p hp
        simp only [get_dcp_info, List.mem_cons, List.not_mem_nil, or_false] at hp
        rcases hp with rfl | rfl | rfl <;> simp
      have hdpx : ∀ p ∈ get_dpx_info digital_data_record, p.1 ≠ "match_asset" := by
        intro p hp
        simp only [get_dpx_info, List.mem_cons, List.not_mem_nil, or_false] at hp
        rcases hp with rfl | rfl <;> simp
      simp only [get_mams_metadata, ht, mdictHasKeyE]
      have hfalse : pyTruthyOptStr (some "") = false := rfl
      simp only [hfalse, Bool.false_eq_true, if_false]
      split
      · rw [mdictHasKeyUpdateNe hdcp, mdictHasKeySetNe hq, mdictHasKeyUpdateNe htk]
        rfl
      · split
        · rw [mdictHasKeyUpdateNe hdpx, mdictHasKeySetNe hq, mdictHasKeyUpdateNe htk]
          rfl
        · rw [mdictHasKeySetNe hq, mdictHasKeyUpdateNe htk]
          rfl

end FtvaEtl
